import Mathlib

/-!
Verification of the relative-transformation algebra of the `graphics`
library (file `src/relative.rs`).

The contexts manipulated by the library are opaque values exposing
get/set capability pairs for a current transform, a view transform, an
RGBA color, a floating-point rectangle and an integer source rectangle.
We embed them as a record holding all five attributes; every operation
of `relative.rs` becomes a pure function `Context → Context`, translated
clause by clause from the Rust source.  Floating-point scalars (`Scalar`
= f64, `ColorComponent` = f32) are modelled as real numbers; the integer
source rectangle uses `ℤ`.

The vector-math primitives (`vecmath` module: `multiply`, `identity`,
`translate`, `rotate_radians`, `orient`, `scale`, `shear`, `get_scale`,
`margin_rectangle`) are repository code that is not part of the excerpt
under verification; their definitions below are modelled from the
specification, as noted on each.
-/

namespace Graphics

/-- A 2D vector, `Vec2d = [Scalar, ..2]`. -/
def Vec2d : Type := ℝ × ℝ

/-- A 2×3 affine matrix, rows `[[m00, m01, m02], [m10, m11, m12]]`,
representing the linear map `(m00, m01; m10, m11)` plus the translation
`(m02, m12)`. -/
@[ext]
structure Matrix2d where
  m00 : ℝ
  m01 : ℝ
  m02 : ℝ
  m10 : ℝ
  m11 : ℝ
  m12 : ℝ

/-- Modelled from the spec: `multiply(a,b)` is standard composition of
2×3 affine matrices (each extended with an implicit bottom row
`[0, 0, 1]`); the result maps a point `p` to `a*(b*p)`. -/
def multiply (a b : Matrix2d) : Matrix2d where
  m00 := a.m00 * b.m00 + a.m01 * b.m10
  m01 := a.m00 * b.m01 + a.m01 * b.m11
  m02 := a.m00 * b.m02 + a.m01 * b.m12 + a.m02
  m10 := a.m10 * b.m00 + a.m11 * b.m10
  m11 := a.m10 * b.m01 + a.m11 * b.m11
  m12 := a.m10 * b.m02 + a.m11 * b.m12 + a.m12

/-- Modelled from the spec: `identity()` is the multiplicative unit. -/
def identity : Matrix2d := ⟨1, 0, 0, 0, 1, 0⟩

/-- Modelled from the spec: `translate(v)` is the translation matrix. -/
def translate (v : Vec2d) : Matrix2d := ⟨1, 0, v.1, 0, 1, v.2⟩

/-- Modelled from the spec: `rotate_radians(a)` is the rotation matrix
for the angle `a` in radians. -/
noncomputable def rotate_radians (a : ℝ) : Matrix2d :=
  ⟨Real.cos a, -Real.sin a, 0, Real.sin a, Real.cos a, 0⟩

/-- Modelled from the spec: `orient(x,y)` rotates the local x axis to
look toward the point `(x,y)`; when `(x,y)` is the origin the x axis is
left unchanged (identity). -/
noncomputable def orient (x y : ℝ) : Matrix2d :=
  let len := Real.sqrt (x ^ 2 + y ^ 2)
  if len = 0 then identity
  else ⟨x / len, -(y / len), 0, y / len, x / len, 0⟩

/-- Modelled from the spec: `scale(sx, sy)` is the anisotropic scale
matrix. -/
def scale (sx sy : ℝ) : Matrix2d := ⟨sx, 0, 0, 0, sy, 0⟩

/-- Modelled from the spec: `shear(v)` is the shear matrix for the
shear vector `v`. -/
def shear (v : Vec2d) : Matrix2d := ⟨1, v.1, 0, v.2, 1, 0⟩

/-- Modelled from the spec: `get_scale(mat)` extracts the matrix's
scale components `(scaleX, scaleY)`, the Euclidean norms of the two
columns of the linear part (for a pure scale matrix these are the
scale factors themselves). -/
noncomputable def get_scale (m : Matrix2d) : ℝ × ℝ :=
  (Real.sqrt (m.m00 ^ 2 + m.m10 ^ 2), Real.sqrt (m.m01 ^ 2 + m.m11 ^ 2))

/-- A floating-point rectangle `(x, y, w, h)`. -/
@[ext]
structure Rectangle where
  x : ℝ
  y : ℝ
  w : ℝ
  h : ℝ

/-- Modelled from the spec: `margin_rectangle(rect, m)` shrinks the
rectangle by `m` on every side: `x+=m, y+=m, w-=2m, h-=2m`; negative
resulting width/height propagate as-is. -/
def margin_rectangle (r : Rectangle) (m : ℝ) : Rectangle :=
  ⟨r.x + m, r.y + m, r.w - 2 * m, r.h - 2 * m⟩

/-- An RGBA color, four unconstrained channels `[c0, c1, c2, c3]`. -/
@[ext]
structure Color where
  c0 : ℝ
  c1 : ℝ
  c2 : ℝ
  c3 : ℝ

/-- An integer source (texture) rectangle `(x, y, w, h)`; `w` and `h`
are signed and may be negative to encode a flip. -/
@[ext]
structure SourceRectangle where
  x : ℤ
  y : ℤ
  w : ℤ
  h : ℤ
deriving DecidableEq

/-- A drawing context exposing every capability pair used by
`relative.rs`: current transform, view transform, color, rectangle and
source rectangle.  Cloning a context is a full value copy, so the
Rust pattern `let mut res = self.clone(); res.set_x(v); res` is
embedded as the record update `{ c with x := v }`. -/
@[ext]
structure Context where
  transform : Matrix2d
  view_transform : Matrix2d
  color : Color
  rectangle : Rectangle
  source_rectangle : SourceRectangle

/-! ### `RelativeColor` (relative.rs lines 34–77) -/

/-- `mul_rgba`: multiplies the current color with red, green, blue and
alpha values entrywise. -/
def Context.mul_rgba (c : Context) (r g b a : ℝ) : Context :=
  let color := c.color
  { c with color := ⟨color.c0 * r, color.c1 * g, color.c2 * b, color.c3 * a⟩ }

/-- `tint(f)`: `mul_rgba(f, f, f, 1.0)`. -/
def Context.tint (c : Context) (f : ℝ) : Context :=
  c.mul_rgba f f f 1

/-- `shade(f)`: `mul_rgba(1-f, 1-f, 1-f, 1.0)`. -/
def Context.shade (c : Context) (f : ℝ) : Context :=
  let f := 1 - f
  c.mul_rgba f f f 1

/-! ### `RelativeRectangle` (relative.rs lines 82–100) -/

/-- `margin(m)`: shrinks the current rectangle equally by all sides. -/
def Context.margin (c : Context) (m : ℝ) : Context :=
  { c with rectangle := margin_rectangle c.rectangle m }

/-- `expand(m)`: `margin(-m)`. -/
def Context.expand (c : Context) (m : ℝ) : Context :=
  c.margin (-m)

/-! ### `RelativeSourceRectangle` (relative.rs lines 106–157) -/

/-- `src_flip_h`: flips the source rectangle horizontally:
`[x + w, y, -w, h]`. -/
def Context.src_flip_h (c : Context) : Context :=
  let s := c.source_rectangle
  { c with source_rectangle := ⟨s.x + s.w, s.y, -s.w, s.h⟩ }

/-- `src_flip_v`: flips the source rectangle vertically:
`[x, y + h, w, -h]`. -/
def Context.src_flip_v (c : Context) : Context :=
  let s := c.source_rectangle
  { c with source_rectangle := ⟨s.x, s.y + s.h, s.w, -s.h⟩ }

/-- `src_flip_hv`: flips the source rectangle on both axes:
`[x + w, y + h, -w, -h]`. -/
def Context.src_flip_hv (c : Context) : Context :=
  let s := c.source_rectangle
  { c with source_rectangle := ⟨s.x + s.w, s.y + s.h, -s.w, -s.h⟩ }

/-! ### `RelativeTransform` (relative.rs lines 164–266) -/

/-- `append_transform(t)`: new current transform = `multiply(mat, t)`. -/
def Context.append_transform (c : Context) (t : Matrix2d) : Context :=
  { c with transform := multiply c.transform t }

/-- `prepend_transform(t)`: new current transform = `multiply(t, mat)`. -/
def Context.prepend_transform (c : Context) (t : Matrix2d) : Context :=
  { c with transform := multiply t c.transform }

/-- `trans(x, y)`: multiplies the current transform by
`translate([x, y])` on the right. -/
def Context.trans (c : Context) (x y : ℝ) : Context :=
  { c with transform := multiply c.transform (translate (x, y)) }

/-- `rot_rad(angle)`: multiplies the current transform by
`rotate_radians(angle)` on the right. -/
noncomputable def Context.rot_rad (c : Context) (angle : ℝ) : Context :=
  { c with transform := multiply c.transform (rotate_radians angle) }

/-- `rot_deg(angle)`: `rot_rad(angle * π / 180)`. -/
noncomputable def Context.rot_deg (c : Context) (angle : ℝ) : Context :=
  c.rot_rad (angle * Real.pi / 180)

/-- `orient(x, y)`: multiplies the current transform by `orient(x, y)`
on the right. -/
noncomputable def Context.orient (c : Context) (x y : ℝ) : Context :=
  { c with transform := multiply c.transform (Graphics.orient x y) }

/-- `scale(sx, sy)`: multiplies the current transform by
`scale(sx, sy)` on the right. -/
def Context.scale (c : Context) (sx sy : ℝ) : Context :=
  { c with transform := multiply c.transform (Graphics.scale sx sy) }

/-- `zoom(s)`: `scale(s, s)`. -/
def Context.zoom (c : Context) (s : ℝ) : Context :=
  c.scale s s

/-- `flip_v`: `scale(1.0, -1.0)`. -/
def Context.flip_v (c : Context) : Context :=
  c.scale 1 (-1)

/-- `flip_h`: `scale(-1.0, 1.0)`. -/
def Context.flip_h (c : Context) : Context :=
  c.scale (-1) 1

/-- `flip_hv`: `scale(-1.0, -1.0)`. -/
def Context.flip_hv (c : Context) : Context :=
  c.scale (-1) (-1)

/-- `shear(v)`: multiplies the current transform by `shear(v)` on the
right. -/
def Context.shear (c : Context) (v : Vec2d) : Context :=
  { c with transform := multiply c.transform (Graphics.shear v) }

/-! ### `RelativeViewTransform` (relative.rs lines 272–318) -/

/-- `view()`: sets the current transform to the stored view
transform. -/
def Context.view (c : Context) : Context :=
  { c with transform := c.view_transform }

/-- `reset()`: sets the current transform to `identity()`. -/
def Context.reset (c : Context) : Context :=
  { c with transform := identity }

/-- `store_view()`: stores the current transform as the new view
transform. -/
def Context.store_view (c : Context) : Context :=
  { c with view_transform := c.transform }

/-- `get_view_size()`: `(2 / scaleX, 2 / scaleY)` where
`(scaleX, scaleY) = get_scale(view transform)`. -/
noncomputable def Context.get_view_size (c : Context) : ℝ × ℝ :=
  let s := get_scale c.view_transform
  (2 / s.1, 2 / s.2)

/-! ### Claims -/

/-- C1: `append_transform(op)` yields the transform `multiply(mat, op)`,
`prepend_transform(op)` yields `multiply(op, mat)`, and two successive
appends compose as `multiply(multiply(mat, m1), m2)`. -/
theorem C1_append_prepend_transform (c : Context) (op m1 m2 : Matrix2d) :
    (c.append_transform op).transform = multiply c.transform op ∧
    (c.prepend_transform op).transform = multiply op c.transform ∧
    ((c.append_transform m1).append_transform m2).transform =
      multiply (multiply c.transform m1) m2 := by
  refine ⟨rfl, rfl, rfl⟩

/-- C2: each convenience transform operation appends the corresponding
primitive matrix: `trans`, `rot_rad`, `orient`, `scale` and `shear`
append `translate`, `rotate_radians`, `orient`, `scale` and `shear`
respectively; `zoom(s) = scale(s,s)`, `flip_v = scale(1,-1)`,
`flip_h = scale(-1,1)`, `flip_hv = scale(-1,-1)`, and
`rot_deg(a) = rot_rad(a*π/180)`. -/
theorem C2_transform_shorthands (c : Context) (x y a sx sy s : ℝ) (v : Vec2d) :
    c.trans x y = c.append_transform (translate (x, y)) ∧
    c.rot_rad a = c.append_transform (rotate_radians a) ∧
    c.orient x y = c.append_transform (Graphics.orient x y) ∧
    c.scale sx sy = c.append_transform (Graphics.scale sx sy) ∧
    c.shear v = c.append_transform (Graphics.shear v) ∧
    c.zoom s = c.scale s s ∧
    c.flip_v = c.scale 1 (-1) ∧
    c.flip_h = c.scale (-1) 1 ∧
    c.flip_hv = c.scale (-1) (-1) ∧
    c.rot_deg a = c.rot_rad (a * Real.pi / 180) := by
  refine ⟨rfl, rfl, rfl, rfl, rfl, rfl, rfl, rfl, rfl, rfl⟩

/-- C3: `mul_rgba(r,g,b,a)` multiplies the four color channels
entrywise by `(r,g,b,a)`, with no clamping. -/
theorem C3_mul_rgba (c : Context) (r g b a : ℝ) :
    (c.mul_rgba r g b a).color =
      ⟨c.color.c0 * r, c.color.c1 * g, c.color.c2 * b, c.color.c3 * a⟩ := by
  rfl

/-- C4: `tint(1)` leaves the color unchanged, `tint(0)` zeroes the RGB
channels and keeps alpha, `shade(0)` leaves the color unchanged and
`shade(1)` zeroes the RGB channels, because `tint(f) = mul_rgba(f,f,f,1)`
and `shade(f) = mul_rgba(1-f,1-f,1-f,1)`. -/
theorem C4_tint_shade (c : Context) (f : ℝ) :
    (c.tint 1).color = c.color ∧
    ((c.tint 0).color.c0 = 0 ∧ (c.tint 0).color.c1 = 0 ∧
      (c.tint 0).color.c2 = 0 ∧ (c.tint 0).color.c3 = c.color.c3) ∧
    (c.shade 0).color = c.color ∧
    ((c.shade 1).color.c0 = 0 ∧ (c.shade 1).color.c1 = 0 ∧
      (c.shade 1).color.c2 = 0) ∧
    c.tint f = c.mul_rgba f f f 1 ∧
    c.shade f = c.mul_rgba (1 - f) (1 - f) (1 - f) 1 := by
  refine ⟨?_, ⟨?_, ?_, ?_, ?_⟩, ?_, ⟨?_, ?_, ?_⟩, rfl, rfl⟩ <;>
    simp [Context.tint, Context.shade, Context.mul_rgba]

/-- C5: each source-rectangle flip is self-inverse: applying
`src_flip_h`, `src_flip_v` or `src_flip_hv` twice restores the original
source rectangle. -/
theorem C5_src_flip_involutive (c : Context) :
    (c.src_flip_h.src_flip_h).source_rectangle = c.source_rectangle ∧
    (c.src_flip_v.src_flip_v).source_rectangle = c.source_rectangle ∧
    (c.src_flip_hv.src_flip_hv).source_rectangle = c.source_rectangle := by
  refine ⟨?_, ?_, ?_⟩ <;>
    · simp only [Context.src_flip_h, Context.src_flip_v, Context.src_flip_hv]
      ext <;> simp

/-- C6: `margin(m)` followed by `expand(m)` restores the original
rectangle, since `margin(m)` maps `(x,y,w,h)` to `(x+m,y+m,w-2m,h-2m)`
and `expand(m) = margin(-m)`. -/
theorem C6_margin_expand_round_trip (c : Context) (m : ℝ) :
    ((c.margin m).expand m).rectangle = c.rectangle ∧
    (c.margin m).rectangle =
      ⟨c.rectangle.x + m, c.rectangle.y + m,
        c.rectangle.w - 2 * m, c.rectangle.h - 2 * m⟩ ∧
    c.expand m = c.margin (-m) := by
  refine ⟨?_, rfl, rfl⟩
  simp only [Context.margin, Context.expand, margin_rectangle]
  ext <;> simp

/-- C7: `get_view_size()` returns `(2/scaleX, 2/scaleY)` where
`(scaleX, scaleY)` is the extracted scale of the view transform; in
particular a view transform with scale `(0.01, 0.02)` yields the view
size `(200, 100)`. -/
theorem C7_get_view_size :
    (∀ c : Context,
      c.get_view_size =
        (2 / (get_scale c.view_transform).1,
          2 / (get_scale c.view_transform).2)) ∧
    Context.get_view_size
      { transform := identity, view_transform := scale (1 / 100) (1 / 50),
        color := ⟨1, 1, 1, 1⟩, rectangle := ⟨0, 0, 1, 1⟩,
        source_rectangle := ⟨0, 0, 1, 1⟩ } = (200, 100) := by
  refine ⟨fun c => rfl, ?_⟩
  have h1 : Real.sqrt ((1 / 100 : ℝ) ^ 2 + 0 ^ 2) = 1 / 100 := by
    rw [show ((1 / 100 : ℝ) ^ 2 + 0 ^ 2) = (1 / 100 : ℝ) ^ 2 by ring]
    exact Real.sqrt_sq (by norm_num)
  have h2 : Real.sqrt ((0 : ℝ) ^ 2 + (1 / 50 : ℝ) ^ 2) = 1 / 50 := by
    rw [show ((0 : ℝ) ^ 2 + (1 / 50 : ℝ) ^ 2) = (1 / 50 : ℝ) ^ 2 by ring]
    exact Real.sqrt_sq (by norm_num)
  simp only [Context.get_view_size, get_scale, scale, h1, h2]
  norm_num

/-- C8: `reset()` sets the current transform to the identity regardless
of prior state, and `store_view()` followed by `view()` restores the
original current transform. -/
theorem C8_reset_store_view (c : Context) :
    c.reset.transform = identity ∧
    (c.store_view.view).transform = c.transform := by
  exact ⟨rfl, rfl⟩

/-- C9: `view()` modifies only the current transform, setting it to the
stored view transform; the view-transform slot and every other
attribute are unchanged. -/
theorem C9_view_frame_effect (c : Context) :
    c.view = { c with transform := c.view_transform } := by
  rfl

/-- C10: `src_flip_hv` is the composition of the two single-axis flips
in either order: it yields the same source rectangle as
`src_flip_h` then `src_flip_v`, and as `src_flip_v` then
`src_flip_h`. -/
theorem C10_src_flip_hv_composition (c : Context) :
    c.src_flip_hv.source_rectangle =
      (c.src_flip_h.src_flip_v).source_rectangle ∧
    c.src_flip_hv.source_rectangle =
      (c.src_flip_v.src_flip_h).source_rectangle := by
  exact ⟨rfl, rfl⟩

end Graphics
